import Mathlib

/-!
Verification of the IOFC (income over feed cost) calculators from
`IOFC_template.ipynb` (CNM-University-of-Guelph/IOFC-dairy).

The two Python functions `calc_IOFC_manual` and `calc_IOFC_nd` are embedded
shallowly over `ℚ`:

* pandas DataFrames become lists of records (`RationLine`, `DietRow`);
* the Python dicts `milk_prices`, `milk_components` and the ingredient price
  dicts become structures and association lists;
* `Series.map(dict)` yields a missing value (`NaN`) on an absent key, which we
  model as `Option ℚ`, with arithmetic on a missing value propagating `none`
  (as `NaN` propagates) via `Option.map`;
* `Series.sum()` skips missing values (pandas `skipna=True` default), modelled
  by `sum_skipna`, which treats `none` as contributing `0`;
* the `raise ValueError` in `calc_IOFC_manual` becomes the `Except.error`
  branch, carrying the list of unmatched ingredient names.

Note one deliberate fidelity point: the source's validation tests membership
in the module-level dict `ingredient_prices_asfed_tonne`, not in the
`ingredient_prices` parameter, and the embedding reproduces exactly that.
-/

/-- The `milk_prices` dict: `$`/kg component prices plus the fixed
other-solids percentage of milk yield. -/
structure MilkPrices where
  milk_other_solids_production_perc : ℚ
  milk_fat_dollar_kg : ℚ
  milk_protein_dollar_kg : ℚ
  other_solids_dollar_kg : ℚ
deriving DecidableEq

/-- The `milk_components` dict of the manual path: milk yield (kg/d),
fat %, true protein %. -/
structure MilkComponents where
  MY_kg_d : ℚ
  Milk_Fat_perc : ℚ
  Milk_TProt_perc : ℚ
deriving DecidableEq

/-- One row of the manual path's `ration_df`: ingredient name, inclusion
(kg/d) and dry-matter percentage. -/
structure RationLine where
  Ingredient : String
  kg_inclusion : ℚ
  DM_perc : ℚ
deriving DecidableEq

/-- One row of the model output's `Intakes['diet_info']` table, after the
`filter(['Feedstuff', 'Fd_DMInp', 'Fd_DM', 'Fd_DMIn'])` of the source. -/
structure DietRow where
  Feedstuff : String
  Fd_DMInp : ℚ
  Fd_DM : ℚ
  Fd_DMIn : ℚ
deriving DecidableEq

/-- The slice of the `nd.ModelOutput` object that `calc_IOFC_nd` queries:
`get_value('Mlk_Fat_g')`, `get_value('Mlk_NP_g')`, `get_value('Mlk_Prod')`
and the `Intakes['diet_info']` table. -/
structure ModelOutput where
  Mlk_Fat_g : ℚ
  Mlk_NP_g : ℚ
  Mlk_Prod : ℚ
  diet_info : List DietRow
deriving DecidableEq

/-- Dict lookup, as performed by `x in d` / `Series.map(d)`: the price of an
ingredient name in an association-list price table, `none` when absent. -/
def lookupPrice (prices : List (String × ℚ)) (ing : String) : Option ℚ :=
  (prices.find? (fun kv => kv.1 == ing)).map (fun kv => kv.2)

/-- The module-level dict `ingredient_prices_asfed_tonne` ($/as-fed tonne). -/
def ingredient_prices_asfed_tonne : List (String × ℚ) := [
  ("Wheat straw, Elora", 200),
  ("Alfalfa Silage", 230),
  ("Corn silage, Elora", 180),
  ("Corn Grain HM", 250),
  ("Soy Plus", 700),
  ("Soybean meal 47%", 600),
  ("Canola", 600),
  ("Wheat Shorts", 250),
  ("Tallow", 500),
  ("Sodium chloride (salt)", 1000),
  ("Limestone calcium carbonate", 1000),
  ("Monocalcium phosphate(Dical)", 1000),
  ("Magnesium oxide, Elora", 1000),
  ("Diamond V yeast", 2000),
  ("DCAD+ (Potassium carbonate)", 1000),
  ("Metasmart", 2000),
  ("Vitamin/mineral mix", 2000)]

/-- The module-level `milk_prices` dict of the notebook. -/
def milk_prices : MilkPrices :=
  { milk_other_solids_production_perc := 5.7
    milk_fat_dollar_kg := 13.3
    milk_protein_dollar_kg := 10.96
    other_solids_dollar_kg := 0.9 }

/-- The module-level `milk_components` dict of the notebook. -/
def milk_components : MilkComponents :=
  { MY_kg_d := 31, Milk_Fat_perc := 3.6, Milk_TProt_perc := 3.3 }

/-- The module-level `ration_df` of the notebook (the seven-line example
ration). -/
def ration_df : List RationLine := [
  ⟨"Wheat straw, Elora", 0.5, 90⟩,
  ⟨"Alfalfa Silage", 8.2, 35⟩,
  ⟨"Corn silage, Elora", 8.2, 33⟩,
  ⟨"Corn Grain HM", 3.7, 87⟩,
  ⟨"Soybean meal 47%", 2.0, 88⟩,
  ⟨"Canola", 1.0, 91⟩,
  ⟨"Vitamin/mineral mix", 0.2, 100⟩]

/-- The `price_DM_t` column lambda of `calc_IOFC_manual`:
`price_asfed_t / DM_perc * 100`. -/
def price_DM_t (price_asfed_t DM_perc : ℚ) : ℚ := price_asfed_t / DM_perc * 100

/-- The `price_DM_kg` column lambda of `calc_IOFC_manual`: `price_DM_t / 1000`. -/
def price_DM_kg (pdmt : ℚ) : ℚ := pdmt / 1000

/-- The `daily_cost` column of `calc_IOFC_manual` for one ration line:
`kg_inclusion * price_DM_kg`, where `price_asfed_t` came from
`Ingredient.map(ingredient_prices)` and is therefore missing (`none`, the
model of `NaN`) when the ingredient has no entry in `ingredient_prices`. -/
def daily_cost_line (ingredient_prices : List (String × ℚ)) (r : RationLine) : Option ℚ :=
  (lookupPrice ingredient_prices r.Ingredient).map
    (fun p => r.kg_inclusion * price_DM_kg (price_DM_t p r.DM_perc))

/-- pandas `Series.sum()` with its default `skipna=True`: missing values
contribute nothing to the sum. -/
def sum_skipna (l : List (Option ℚ)) : ℚ := (l.map (fun x => x.getD 0)).sum

/-- `milk_fat_dollar_d` of `calc_IOFC_manual`:
`(Milk_Fat_perc/100 * MY_kg_d) * milk_fat_dollar_kg`. -/
def milk_fat_dollar_d (mp : MilkPrices) (mc : MilkComponents) : ℚ :=
  mc.Milk_Fat_perc / 100 * mc.MY_kg_d * mp.milk_fat_dollar_kg

/-- `milk_protein_dollar_d` of `calc_IOFC_manual`. -/
def milk_protein_dollar_d (mp : MilkPrices) (mc : MilkComponents) : ℚ :=
  mc.Milk_TProt_perc / 100 * mc.MY_kg_d * mp.milk_protein_dollar_kg

/-- `milk_other_dollar_d` of `calc_IOFC_manual` (the other-solids percentage
comes from `milk_prices`, not `milk_components`). -/
def milk_other_dollar_d (mp : MilkPrices) (mc : MilkComponents) : ℚ :=
  mp.milk_other_solids_production_perc / 100 * mc.MY_kg_d * mp.other_solids_dollar_kg

/-- `revenue_dollar_per_d` of `calc_IOFC_manual`. -/
def manualRevenue (mp : MilkPrices) (mc : MilkComponents) : ℚ :=
  milk_fat_dollar_d mp mc + milk_protein_dollar_d mp mc + milk_other_dollar_d mp mc

/-- `diet_cost_p_d` of `calc_IOFC_manual`: the NaN-skipping sum of the
`daily_cost` column. -/
def manualDietCost (ingredient_prices : List (String × ℚ)) (ration : List RationLine) : ℚ :=
  sum_skipna (ration.map (daily_cost_line ingredient_prices))

/-- `unmatched_ingredients` of `calc_IOFC_manual`: the names of the ration
lines whose ingredient is absent from the MODULE-LEVEL dict
`ingredient_prices_asfed_tonne` (exactly as in the source, which closes over
the global, not over the `ingredient_prices` parameter). -/
def unmatched_ingredients (ration : List RationLine) : List String :=
  (ration.filter
      (fun r => ¬ (lookupPrice ingredient_prices_asfed_tonne r.Ingredient).isSome)).map
    (fun r => r.Ingredient)

/-- `calc_IOFC_manual`. Validation tests each ration ingredient for
membership in the module-level `ingredient_prices_asfed_tonne` (the source's
`lambda x: x in ingredient_prices_asfed_tonne`); on failure it raises with
the list of unmatched names. Otherwise it returns
`revenue_dollar_per_d - diet_cost_p_d`, where the cost column is priced from
the `ingredient_prices` PARAMETER via `Series.map`. The `verbose` flag only
prints and does not enter the computation. -/
def calc_IOFC_manual (milk_prices : MilkPrices) (milk_components : MilkComponents)
    (ingredient_prices : List (String × ℚ)) (ration_df : List RationLine)
    (verbose : Bool) : Except (List String) ℚ :=
  let ingredient_validation :=
    ration_df.all (fun r => (lookupPrice ingredient_prices_asfed_tonne r.Ingredient).isSome)
  if ingredient_validation then
    Except.ok (manualRevenue milk_prices milk_components
      - manualDietCost ingredient_prices ration_df)
  else
    Except.error (unmatched_ingredients ration_df)

/-- `milk_fat_price_p_d` of `calc_IOFC_nd`: `Mlk_Fat_g/1000 * milk_fat_dollar_kg`. -/
def milk_fat_price_p_d (mp : MilkPrices) (mo : ModelOutput) : ℚ :=
  mo.Mlk_Fat_g / 1000 * mp.milk_fat_dollar_kg

/-- `milk_protein_price_p_d` of `calc_IOFC_nd`: `Mlk_NP_g/1000 * milk_protein_dollar_kg`. -/
def milk_protein_price_p_d (mp : MilkPrices) (mo : ModelOutput) : ℚ :=
  mo.Mlk_NP_g / 1000 * mp.milk_protein_dollar_kg

/-- `milk_other_solids_price_p_d` of `calc_IOFC_nd`:
`milk_other_solids_production_perc/100 * Mlk_Prod * other_solids_dollar_kg`. -/
def milk_other_solids_price_p_d (mp : MilkPrices) (mo : ModelOutput) : ℚ :=
  mp.milk_other_solids_production_perc / 100 * mo.Mlk_Prod * mp.other_solids_dollar_kg

/-- `revenue_dollar_per_d` of `calc_IOFC_nd`. -/
def ndRevenue (mp : MilkPrices) (mo : ModelOutput) : ℚ :=
  milk_fat_price_p_d mp mo + milk_protein_price_p_d mp mo + milk_other_solids_price_p_d mp mo

/-- The `dollar_fed_p_d` column of `calc_IOFC_nd` for one diet row:
`dollar_t_as_fed` is `Feedstuff.map(ingredient_prices)` (missing on absent
key), `dollar_t_DM = dollar_t_as_fed / Fd_DM * 100`, and
`dollar_fed_p_d = dollar_t_DM / 1000 * Fd_DMIn`. -/
def dollar_fed_p_d (ingredient_prices : List (String × ℚ)) (r : DietRow) : Option ℚ :=
  (lookupPrice ingredient_prices r.Feedstuff).map
    (fun p => p / r.Fd_DM * 100 / 1000 * r.Fd_DMIn)

/-- `diet_cost_p_d` of `calc_IOFC_nd`: NaN-skipping sum of `dollar_fed_p_d`. -/
def ndDietCost (ingredient_prices : List (String × ℚ)) (rows : List DietRow) : ℚ :=
  sum_skipna (rows.map (dollar_fed_p_d ingredient_prices))

/-- `calc_IOFC_nd`: revenue minus diet cost. There is no validation step; a
missing price key yields a missing `dollar_fed_p_d`, which the skipna sum
drops, so the function is total and always returns a number. -/
def calc_IOFC_nd (milk_prices : MilkPrices) (ingredient_prices : List (String × ℚ))
    (mod_output : ModelOutput) : ℚ :=
  ndRevenue milk_prices mod_output - ndDietCost ingredient_prices mod_output.diet_info

/-- The full argument tuple of a `calc_IOFC_manual` call, used to state frame
properties: what the caller passed in, observed again after the call. -/
structure ManualInputs where
  milk_prices : MilkPrices
  milk_components : MilkComponents
  ingredient_prices : List (String × ℚ)
  ration_df : List RationLine
deriving DecidableEq

/-- The full argument tuple of a `calc_IOFC_nd` call. -/
structure NdInputs where
  milk_prices : MilkPrices
  ingredient_prices : List (String × ℚ)
  mod_output : ModelOutput
deriving DecidableEq

/-- `calc_IOFC_manual` as a state transformer on its inputs. The only table
update in the source is `ration_df = ration_df.assign(...)`; `DataFrame.assign`
returns a fresh augmented copy and the assignment rebinds the local name only,
so the caller-visible inputs come back exactly as passed. -/
def calc_IOFC_manual_run (inp : ManualInputs) (verbose : Bool) :
    Except (List String) ℚ × ManualInputs :=
  let augmented_local :=
    inp.ration_df.map (fun r => (r, daily_cost_line inp.ingredient_prices r))
  let result :=
    calc_IOFC_manual inp.milk_prices inp.milk_components inp.ingredient_prices
      inp.ration_df verbose
  (result, { inp with ration_df := (augmented_local.map (fun x => x.1)) })

/-- `calc_IOFC_nd` as a state transformer on its inputs: `diet_sub` is a
fresh filtered-and-assigned copy of the model's diet table, local to the
call. -/
def calc_IOFC_nd_run (inp : NdInputs) : ℚ × NdInputs :=
  let diet_sub :=
    inp.mod_output.diet_info.map (fun r => (r, dollar_fed_p_d inp.ingredient_prices r))
  let result := calc_IOFC_nd inp.milk_prices inp.ingredient_prices inp.mod_output
  (result,
    { inp with mod_output := { inp.mod_output with diet_info := diet_sub.map (fun x => x.1) } })

/- ------------------------------------------------------------------ -/
/- Shared lemmas                                                      -/
/- ------------------------------------------------------------------ -/

lemma manualDietCost_cons (ip : List (String × ℚ)) (r : RationLine) (rs : List RationLine) :
    manualDietCost ip (r :: rs) = (daily_cost_line ip r).getD 0 + manualDietCost ip rs := by
  simp [manualDietCost, sum_skipna]

lemma ndDietCost_cons (ip : List (String × ℚ)) (r : DietRow) (rs : List DietRow) :
    ndDietCost ip (r :: rs) = (dollar_fed_p_d ip r).getD 0 + ndDietCost ip rs := by
  simp [ndDietCost, sum_skipna]

lemma lookupPrice_mem {ip : List (String × ℚ)} {s : String} {p : ℚ}
    (h : lookupPrice ip s = some p) : ∃ kv ∈ ip, kv.2 = p := by
  unfold lookupPrice at h
  rcases hf : ip.find? (fun kv => kv.1 == s) with _ | kv
  · rw [hf] at h; simp at h
  · rw [hf] at h
    simp at h
    exact ⟨kv, List.mem_of_find?_eq_some hf, h⟩

lemma lookupPrice_getD_nonneg (ip : List (String × ℚ)) (s : String)
    (h : ∀ kv ∈ ip, 0 ≤ kv.2) : 0 ≤ (lookupPrice ip s).getD 0 := by
  rcases hf : lookupPrice ip s with _ | p
  · simp
  · obtain ⟨kv, hmem, hval⟩ := lookupPrice_mem hf
    simpa [hval] using h kv hmem

/- ------------------------------------------------------------------ -/
/- Claims                                                             -/
/- ------------------------------------------------------------------ -/

/-- Claim C1 (code evaluated at the failing input): the claim says a ration
ingredient absent from the price table PASSED AS INPUT makes
`calc_IOFC_manual` raise before any computation, reporting exactly the set
difference. On the failing input — ration containing only Alfalfa Silage,
`ingredient_prices` the empty table — the code instead passes validation
(it consults the module-level `ingredient_prices_asfed_tonne`, where Alfalfa
Silage is present, so `unmatched_ingredients` is empty), looks the price up
in the empty parameter table and finds nothing, and returns the numeric
value `27.64518` (the revenue, the unpriced line contributing no cost). -/
theorem C1_missing_param_price_not_detected :
    calc_IOFC_manual milk_prices milk_components [] [⟨"Alfalfa Silage", 8.2, 35⟩] false
      = Except.ok (1382259 / 50000)
    ∧ lookupPrice [] ("Alfalfa Silage") = none
    ∧ unmatched_ingredients [⟨"Alfalfa Silage", 8.2, 35⟩] = []
    ∧ (1382259 / 50000 : ℚ) = manualRevenue milk_prices milk_components := by
  refine ⟨?_, rfl, ?_, ?_⟩
  · simp [calc_IOFC_manual, manualRevenue, manualDietCost, sum_skipna, daily_cost_line,
      lookupPrice, ingredient_prices_asfed_tonne, milk_prices, milk_components,
      milk_fat_dollar_d, milk_protein_dollar_d, milk_other_dollar_d]
    norm_num
  · simp [unmatched_ingredients, lookupPrice, ingredient_prices_asfed_tonne]
  · simp [manualRevenue, milk_prices, milk_components,
      milk_fat_dollar_d, milk_protein_dollar_d, milk_other_dollar_d]
    norm_num

/-- Claim C2: on the notebook's example inputs, `calc_IOFC_manual` returns
the exact rational `185319935599/13063050000`, which agrees with the claimed
`14.186574773808571` to within `10⁻¹³` (the printed value is the float64
rendering of this rational); the intermediate revenue is `27.65` and the diet
cost `13.46` to the printed two decimals; and the seven per-line daily costs
are exactly `1/9, 943/175, 246/55, 185/174, 15/11, 60/91, 2/5`, matching the
listed four-decimal values `0.1111, 5.3886, 4.4727, 1.0632, 1.3636, 0.6593,
0.4000`. -/
theorem C2_example_inputs_value :
    calc_IOFC_manual milk_prices milk_components ingredient_prices_asfed_tonne ration_df true
      = Except.ok (185319935599 / 13063050000)
    ∧ |(185319935599 / 13063050000 : ℚ) - 14.186574773808571| < 1 / 10 ^ 13
    ∧ |manualRevenue milk_prices milk_components - 27.65| < 1 / 200
    ∧ |manualDietCost ingredient_prices_asfed_tonne ration_df - 13.46| < 1 / 200
    ∧ ration_df.map (daily_cost_line ingredient_prices_asfed_tonne)
        = [some (1/9), some (943/175), some (246/55), some (185/174),
           some (15/11), some (60/91), some (2/5)]
    ∧ |(1/9 : ℚ) - 0.1111| < 1/20000
    ∧ |(943/175 : ℚ) - 5.3886| < 1/20000
    ∧ |(246/55 : ℚ) - 4.4727| < 1/20000
    ∧ |(185/174 : ℚ) - 1.0632| < 1/20000
    ∧ |(15/11 : ℚ) - 1.3636| < 1/20000
    ∧ |(60/91 : ℚ) - 0.6593| < 1/20000
    ∧ ((2/5 : ℚ) = 0.4000) := by
  refine ⟨?_, ?_, ?_, ?_, ?_, ?_, ?_, ?_, ?_, ?_, ?_, ?_⟩
  · simp [calc_IOFC_manual, manualRevenue, manualDietCost, sum_skipna, daily_cost_line,
      lookupPrice, price_DM_t, price_DM_kg, ration_df, milk_prices, milk_components,
      ingredient_prices_asfed_tonne, milk_fat_dollar_d, milk_protein_dollar_d,
      milk_other_dollar_d]
    norm_num
  · rw [abs_sub_lt_iff]; norm_num
  · rw [abs_sub_lt_iff]
    simp [manualRevenue, milk_prices, milk_components, milk_fat_dollar_d,
      milk_protein_dollar_d, milk_other_dollar_d]
    norm_num
  · rw [abs_sub_lt_iff]
    simp [manualDietCost, sum_skipna, daily_cost_line, lookupPrice, price_DM_t,
      price_DM_kg, ration_df, ingredient_prices_asfed_tonne]
    norm_num
  · simp [ration_df, daily_cost_line, lookupPrice, price_DM_t, price_DM_kg,
      ingredient_prices_asfed_tonne]
    norm_num
  · rw [abs_sub_lt_iff]; norm_num
  · rw [abs_sub_lt_iff]; norm_num
  · rw [abs_sub_lt_iff]; norm_num
  · rw [abs_sub_lt_iff]; norm_num
  · rw [abs_sub_lt_iff]; norm_num
  · rw [abs_sub_lt_iff]; norm_num
  · norm_num

lemma manualDietCost_eq_formula (ip : List (String × ℚ)) (ration : List RationLine) :
    manualDietCost ip ration
      = (ration.map (fun r =>
          r.kg_inclusion * (((lookupPrice ip r.Ingredient).getD 0) / r.DM_perc * 100) / 1000)).sum := by
  induction ration with
  | nil => rfl
  | cons r rs ih =>
      rw [List.map_cons, List.sum_cons, manualDietCost_cons, ih]
      congr 1
      rcases h : lookupPrice ip r.Ingredient with _ | p
      · simp [daily_cost_line, h]
      · simp [daily_cost_line, h, price_DM_kg, price_DM_t]
        ring

lemma ndDietCost_eq_formula (ip : List (String × ℚ)) (rows : List DietRow) :
    ndDietCost ip rows
      = (rows.map (fun r =>
          r.Fd_DMIn * (((lookupPrice ip r.Feedstuff).getD 0) / r.Fd_DM * 100) / 1000)).sum := by
  induction rows with
  | nil => rfl
  | cons r rs ih =>
      rw [List.map_cons, List.sum_cons, ndDietCost_cons, ih]
      congr 1
      rcases h : lookupPrice ip r.Feedstuff with _ | p
      · simp [dollar_fed_p_d, h]
      · simp [dollar_fed_p_d, h]
        ring

lemma manualDietCost_filter_matched (ip : List (String × ℚ)) (ration : List RationLine) :
    manualDietCost ip ration
      = manualDietCost ip (ration.filter (fun r => (lookupPrice ip r.Ingredient).isSome)) := by
  induction ration with
  | nil => rfl
  | cons r rs ih =>
      rw [manualDietCost_cons, ih]
      rcases h : lookupPrice ip r.Ingredient with _ | p
      · simp [daily_cost_line, h, List.filter_cons]
      · simp [List.filter_cons, h, manualDietCost_cons]

lemma ndDietCost_filter_matched (ip : List (String × ℚ)) (rows : List DietRow) :
    ndDietCost ip rows
      = ndDietCost ip (rows.filter (fun r => (lookupPrice ip r.Feedstuff).isSome)) := by
  induction rows with
  | nil => rfl
  | cons r rs ih =>
      rw [ndDietCost_cons, ih]
      rcases h : lookupPrice ip r.Feedstuff with _ | p
      · simp [dollar_fed_p_d, h, List.filter_cons]
      · simp [List.filter_cons, h, ndDietCost_cons]

lemma manualRevenue_nonneg (mp : MilkPrices) (mc : MilkComponents)
    (h1 : 0 ≤ mc.MY_kg_d) (h2 : 0 ≤ mc.Milk_Fat_perc) (h3 : 0 ≤ mc.Milk_TProt_perc)
    (h4 : 0 ≤ mp.milk_other_solids_production_perc) (h5 : 0 ≤ mp.milk_fat_dollar_kg)
    (h6 : 0 ≤ mp.milk_protein_dollar_kg) (h7 : 0 ≤ mp.other_solids_dollar_kg) :
    0 ≤ manualRevenue mp mc := by
  unfold manualRevenue milk_fat_dollar_d milk_protein_dollar_d milk_other_dollar_d
  have ha : (0:ℚ) ≤ mc.Milk_Fat_perc / 100 * mc.MY_kg_d * mp.milk_fat_dollar_kg :=
    mul_nonneg (mul_nonneg (div_nonneg h2 (by norm_num)) h1) h5
  have hb : (0:ℚ) ≤ mc.Milk_TProt_perc / 100 * mc.MY_kg_d * mp.milk_protein_dollar_kg :=
    mul_nonneg (mul_nonneg (div_nonneg h3 (by norm_num)) h1) h6
  have hc : (0:ℚ) ≤ mp.milk_other_solids_production_perc / 100 * mc.MY_kg_d
      * mp.other_solids_dollar_kg :=
    mul_nonneg (mul_nonneg (div_nonneg h4 (by norm_num)) h1) h7
  linarith

lemma ndRevenue_nonneg (mp : MilkPrices) (mo : ModelOutput)
    (h1 : 0 ≤ mo.Mlk_Fat_g) (h2 : 0 ≤ mo.Mlk_NP_g) (h3 : 0 ≤ mo.Mlk_Prod)
    (h4 : 0 ≤ mp.milk_other_solids_production_perc) (h5 : 0 ≤ mp.milk_fat_dollar_kg)
    (h6 : 0 ≤ mp.milk_protein_dollar_kg) (h7 : 0 ≤ mp.other_solids_dollar_kg) :
    0 ≤ ndRevenue mp mo := by
  unfold ndRevenue milk_fat_price_p_d milk_protein_price_p_d milk_other_solids_price_p_d
  have ha : (0:ℚ) ≤ mo.Mlk_Fat_g / 1000 * mp.milk_fat_dollar_kg :=
    mul_nonneg (div_nonneg h1 (by norm_num)) h5
  have hb : (0:ℚ) ≤ mo.Mlk_NP_g / 1000 * mp.milk_protein_dollar_kg :=
    mul_nonneg (div_nonneg h2 (by norm_num)) h6
  have hc : (0:ℚ) ≤ mp.milk_other_solids_production_perc / 100 * mo.Mlk_Prod
      * mp.other_solids_dollar_kg :=
    mul_nonneg (mul_nonneg (div_nonneg h4 (by norm_num)) h3) h7
  linarith

lemma manualDietCost_nonneg (ip : List (String × ℚ)) (ration : List RationLine)
    (hp : ∀ kv ∈ ip, 0 ≤ kv.2)
    (hr : ∀ r ∈ ration, 0 ≤ r.kg_inclusion ∧ 0 < r.DM_perc) :
    0 ≤ manualDietCost ip ration := by
  induction ration with
  | nil => simp [manualDietCost, sum_skipna]
  | cons r rs ih =>
      rw [manualDietCost_cons]
      have hr1 := hr r (List.mem_cons_self r rs)
      have hrest : 0 ≤ manualDietCost ip rs :=
        ih (fun x hx => hr x (List.mem_cons_of_mem r hx))
      have hterm : 0 ≤ (daily_cost_line ip r).getD 0 := by
        rcases h : lookupPrice ip r.Ingredient with _ | p
        · simp [daily_cost_line, h]
        · have hpnn : 0 ≤ p := by
            obtain ⟨kv, hmem, hval⟩ := lookupPrice_mem h
            simpa [hval] using hp kv hmem
          have h1 : (0:ℚ) ≤ p / r.DM_perc := div_nonneg hpnn (le_of_lt hr1.2)
          have h2 : (0:ℚ) ≤ p / r.DM_perc * 100 / 1000 :=
            div_nonneg (mul_nonneg h1 (by norm_num)) (by norm_num)
          simp only [daily_cost_line, h, Option.map_some', Option.getD_some,
            price_DM_kg, price_DM_t]
          rw [mul_div_assoc] at h2 ⊢
          exact mul_nonneg hr1.1 h2
      linarith

lemma ndDietCost_nonneg (ip : List (String × ℚ)) (rows : List DietRow)
    (hp : ∀ kv ∈ ip, 0 ≤ kv.2)
    (hr : ∀ r ∈ rows, 0 ≤ r.Fd_DMIn ∧ 0 < r.Fd_DM) :
    0 ≤ ndDietCost ip rows := by
  induction rows with
  | nil => simp [ndDietCost, sum_skipna]
  | cons r rs ih =>
      rw [ndDietCost_cons]
      have hr1 := hr r (List.mem_cons_self r rs)
      have hrest : 0 ≤ ndDietCost ip rs :=
        ih (fun x hx => hr x (List.mem_cons_of_mem r hx))
      have hterm : 0 ≤ (dollar_fed_p_d ip r).getD 0 := by
        rcases h : lookupPrice ip r.Feedstuff with _ | p
        · simp [dollar_fed_p_d, h]
        · have hpnn : 0 ≤ p := by
            obtain ⟨kv, hmem, hval⟩ := lookupPrice_mem h
            simpa [hval] using hp kv hmem
          have h1 : (0:ℚ) ≤ p / r.Fd_DM := div_nonneg hpnn (le_of_lt hr1.2)
          have h2 : (0:ℚ) ≤ p / r.Fd_DM * 100 / 1000 :=
            div_nonneg (mul_nonneg h1 (by norm_num)) (by norm_num)
          simp only [dollar_fed_p_d, h, Option.map_some', Option.getD_some]
          exact mul_nonneg h2 hr1.1
      linarith

lemma map_fst_pair {α β : Type} (f : α → β) (l : List α) :
    (l.map (fun r => (r, f r))).map (fun x => x.1) = l := by
  induction l with
  | nil => rfl
  | cons a as ih => simp [ih]

lemma calc_IOFC_manual_ok (mp : MilkPrices) (mc : MilkComponents)
    (ip : List (String × ℚ)) (ration : List RationLine) (v : Bool)
    (hval : ∀ r ∈ ration, (lookupPrice ingredient_prices_asfed_tonne r.Ingredient).isSome) :
    calc_IOFC_manual mp mc ip ration v
      = Except.ok (manualRevenue mp mc - manualDietCost ip ration) := by
  have hall :
      ration.all (fun r => (lookupPrice ingredient_prices_asfed_tonne r.Ingredient).isSome)
        = true :=
    List.all_eq_true.mpr (fun r hr => hval r hr)
  simp [calc_IOFC_manual, hall]

/-- Claim C3: for valid inputs, both calculators return exactly revenue minus
total feed cost, with revenue `fat_kg*price_fat + protein_kg*price_protein +
other_kg*price_other` and feed cost the sum over lines of
`mass * (price_asfed / DM_perc * 100) / 1000`; and with all quantities,
percentages (DM in (0,100]) and prices non-negative, revenue and feed cost
are each non-negative. -/
theorem C3_iofc_is_revenue_minus_cost
    (mp : MilkPrices) (mc : MilkComponents) (ip : List (String × ℚ))
    (ration : List RationLine) (mo : ModelOutput) (v : Bool)
    (hval : ∀ r ∈ ration, (lookupPrice ingredient_prices_asfed_tonne r.Ingredient).isSome) :
    calc_IOFC_manual mp mc ip ration v
        = Except.ok (manualRevenue mp mc - manualDietCost ip ration)
    ∧ calc_IOFC_nd mp ip mo = ndRevenue mp mo - ndDietCost ip mo.diet_info
    ∧ manualRevenue mp mc
        = mc.Milk_Fat_perc / 100 * mc.MY_kg_d * mp.milk_fat_dollar_kg
          + mc.Milk_TProt_perc / 100 * mc.MY_kg_d * mp.milk_protein_dollar_kg
          + mp.milk_other_solids_production_perc / 100 * mc.MY_kg_d
            * mp.other_solids_dollar_kg
    ∧ ndRevenue mp mo
        = mo.Mlk_Fat_g / 1000 * mp.milk_fat_dollar_kg
          + mo.Mlk_NP_g / 1000 * mp.milk_protein_dollar_kg
          + mp.milk_other_solids_production_perc / 100 * mo.Mlk_Prod
            * mp.other_solids_dollar_kg
    ∧ manualDietCost ip ration
        = (ration.map (fun r =>
            r.kg_inclusion * (((lookupPrice ip r.Ingredient).getD 0) / r.DM_perc * 100)
              / 1000)).sum
    ∧ ndDietCost ip mo.diet_info
        = (mo.diet_info.map (fun r =>
            r.Fd_DMIn * (((lookupPrice ip r.Feedstuff).getD 0) / r.Fd_DM * 100)
              / 1000)).sum
    ∧ ((0 ≤ mc.MY_kg_d ∧ 0 ≤ mc.Milk_Fat_perc ∧ 0 ≤ mc.Milk_TProt_perc
          ∧ 0 ≤ mp.milk_other_solids_production_perc ∧ 0 ≤ mp.milk_fat_dollar_kg
          ∧ 0 ≤ mp.milk_protein_dollar_kg ∧ 0 ≤ mp.other_solids_dollar_kg) →
        0 ≤ manualRevenue mp mc)
    ∧ ((0 ≤ mo.Mlk_Fat_g ∧ 0 ≤ mo.Mlk_NP_g ∧ 0 ≤ mo.Mlk_Prod
          ∧ 0 ≤ mp.milk_other_solids_production_perc ∧ 0 ≤ mp.milk_fat_dollar_kg
          ∧ 0 ≤ mp.milk_protein_dollar_kg ∧ 0 ≤ mp.other_solids_dollar_kg) →
        0 ≤ ndRevenue mp mo)
    ∧ ((∀ kv ∈ ip, 0 ≤ kv.2) →
        ((∀ r ∈ ration, 0 ≤ r.kg_inclusion ∧ 0 < r.DM_perc ∧ r.DM_perc ≤ 100) →
            0 ≤ manualDietCost ip ration)
          ∧ ((∀ r ∈ mo.diet_info, 0 ≤ r.Fd_DMIn ∧ 0 < r.Fd_DM ∧ r.Fd_DM ≤ 100) →
            0 ≤ ndDietCost ip mo.diet_info)) := by
  refine ⟨calc_IOFC_manual_ok mp mc ip ration v hval, rfl, ?_, ?_,
    manualDietCost_eq_formula ip ration, ndDietCost_eq_formula ip mo.diet_info,
    ?_, ?_, ?_⟩
  · rfl
  · rfl
  · rintro ⟨h1, h2, h3, h4, h5, h6, h7⟩
    exact manualRevenue_nonneg mp mc h1 h2 h3 h4 h5 h6 h7
  · rintro ⟨h1, h2, h3, h4, h5, h6, h7⟩
    exact ndRevenue_nonneg mp mo h1 h2 h3 h4 h5 h6 h7
  · intro hp
    constructor
    · intro hr
      exact manualDietCost_nonneg ip ration hp
        (fun r hmem => ⟨(hr r hmem).1, (hr r hmem).2.1⟩)
    · intro hr
      exact ndDietCost_nonneg ip mo.diet_info hp
        (fun r hmem => ⟨(hr r hmem).1, (hr r hmem).2.1⟩)

/-- Witness for C3: the theorem applied to the notebook's example inputs (and
an arbitrary concrete model output), all hypotheses discharged concretely. -/
theorem C3_witness :
    calc_IOFC_manual milk_prices milk_components ingredient_prices_asfed_tonne ration_df false
      = Except.ok (manualRevenue milk_prices milk_components
          - manualDietCost ingredient_prices_asfed_tonne ration_df) :=
  (C3_iofc_is_revenue_minus_cost milk_prices milk_components ingredient_prices_asfed_tonne
    ration_df ⟨1116, 1023, 31, []⟩ false (by decide)).1

/-- Claim C4 counterexample: with `ingredient_prices = [("Canola", 600)]` and
a ration of Corn Grain HM and Canola (both present in the module-level
table), validation passes, Corn Grain HM gets a missing (NaN) price — and the
function does NOT return NaN: the skipna sum drops the unpriced line and the
call returns the ordinary number `122785569/4550000` (revenue minus the
Canola cost `60/91` alone). -/
theorem C4_counterexample_returns_number_not_nan :
    calc_IOFC_manual milk_prices milk_components [("Canola", 600)]
        [⟨"Corn Grain HM", 3.7, 87⟩, ⟨"Canola", 1.0, 91⟩] false
      = Except.ok (122785569 / 4550000)
    ∧ daily_cost_line [("Canola", 600)] ⟨"Corn Grain HM", 3.7, 87⟩ = none
    ∧ (122785569 / 4550000 : ℚ)
        = manualRevenue milk_prices milk_components - 60 / 91 := by
  refine ⟨?_, rfl, ?_⟩
  · simp [calc_IOFC_manual, manualRevenue, manualDietCost, sum_skipna, daily_cost_line,
      lookupPrice, price_DM_t, price_DM_kg, milk_prices, milk_components,
      ingredient_prices_asfed_tonne, milk_fat_dollar_d, milk_protein_dollar_d,
      milk_other_dollar_d]
    norm_num
  · simp [manualRevenue, milk_prices, milk_components, milk_fat_dollar_d,
      milk_protein_dollar_d, milk_other_dollar_d]
    norm_num

/-- Claim C4 as amended: validation tests membership in the module-level
`ingredient_prices_asfed_tonne`, so any ration drawn from it passes
regardless of the `ingredient_prices` argument; a line whose ingredient is
absent from `ingredient_prices` gets a missing (NaN) price from the map
step, and the NaN-skipping sum then drops that line, so the function returns
a numeric IOFC that simply omits the missing line's cost (not NaN, and no
error). -/
theorem C4_amended_global_validation_then_skip
    (mp : MilkPrices) (mc : MilkComponents) (ip : List (String × ℚ))
    (ration : List RationLine) (v : Bool)
    (hval : ∀ r ∈ ration, (lookupPrice ingredient_prices_asfed_tonne r.Ingredient).isSome) :
    calc_IOFC_manual mp mc ip ration v
        = Except.ok (manualRevenue mp mc - manualDietCost ip ration)
    ∧ manualDietCost ip ration
        = manualDietCost ip (ration.filter (fun r => (lookupPrice ip r.Ingredient).isSome)) :=
  ⟨calc_IOFC_manual_ok mp mc ip ration v hval, manualDietCost_filter_matched ip ration⟩

/-- Witness for C4's amended theorem, at a concrete ration priced from a
one-entry parameter table. -/
theorem C4_amended_witness :
    calc_IOFC_manual milk_prices milk_components [("Canola", 600)]
        [⟨"Corn Grain HM", 3.7, 87⟩, ⟨"Canola", 1.0, 91⟩] false
      = Except.ok (manualRevenue milk_prices milk_components
          - manualDietCost [("Canola", 600)]
              [⟨"Corn Grain HM", 3.7, 87⟩, ⟨"Canola", 1.0, 91⟩]) :=
  (C4_amended_global_validation_then_skip milk_prices milk_components [("Canola", 600)]
    [⟨"Corn Grain HM", 3.7, 87⟩, ⟨"Canola", 1.0, 91⟩] false (by decide)).1

/-- Claim C5: the `verbose` flag only prints; the returned IOFC is identical
for any two values of the flag on the same inputs. -/
theorem C5_verbose_does_not_change_value
    (mp : MilkPrices) (mc : MilkComponents) (ip : List (String × ℚ))
    (ration : List RationLine) (v1 v2 : Bool) :
    calc_IOFC_manual mp mc ip ration v1 = calc_IOFC_manual mp mc ip ration v2 := rfl

/-- Claim C6: at `DM_perc = 100` the dry-matter price adjustment is the
identity — for a single-ingredient ration line with DM 100, `price_DM_t`
equals the stored as-fed price, and the line's daily cost is just
`kg_inclusion * price/1000`. -/
theorem C6_dm_100_price_roundtrip (nm : String) (kg p : ℚ) :
    price_DM_t p (RationLine.mk nm kg 100).DM_perc = p
    ∧ daily_cost_line [(nm, p)] (RationLine.mk nm kg 100) = some (kg * (p / 1000)) := by
  constructor
  · show price_DM_t p 100 = p
    unfold price_DM_t
    field_simp
  · simp [daily_cost_line, lookupPrice, price_DM_kg, price_DM_t]

/-- Claim C7: the two calculators share the revenue formula — when the model
outputs are the gram-for-kilogram equivalents of the manual inputs
(`Mlk_Fat_g = 1000·(fat%/100·MY)`, `Mlk_NP_g = 1000·(TP%/100·MY)`,
`Mlk_Prod = MY`), each revenue term and the total revenue agree between
`calc_IOFC_nd` and `calc_IOFC_manual`. -/
theorem C7_revenue_formula_shared (mp : MilkPrices) (mc : MilkComponents) (mo : ModelOutput)
    (hf : mo.Mlk_Fat_g = 1000 * (mc.Milk_Fat_perc / 100 * mc.MY_kg_d))
    (hp : mo.Mlk_NP_g = 1000 * (mc.Milk_TProt_perc / 100 * mc.MY_kg_d))
    (hm : mo.Mlk_Prod = mc.MY_kg_d) :
    milk_fat_price_p_d mp mo = milk_fat_dollar_d mp mc
    ∧ milk_protein_price_p_d mp mo = milk_protein_dollar_d mp mc
    ∧ milk_other_solids_price_p_d mp mo = milk_other_dollar_d mp mc
    ∧ ndRevenue mp mo = manualRevenue mp mc := by
  unfold ndRevenue manualRevenue milk_fat_price_p_d milk_protein_price_p_d
    milk_other_solids_price_p_d milk_fat_dollar_d milk_protein_dollar_d milk_other_dollar_d
  rw [hf, hp, hm]
  refine ⟨by ring, by ring, by ring, by ring⟩

/-- Witness for C7: the model output `⟨1116, 1023, 31, []⟩` is exactly the
gram-based equivalent of the example `milk_components`, and the two revenue
computations coincide there. -/
theorem C7_witness :
    ndRevenue milk_prices ⟨1116, 1023, 31, []⟩ = manualRevenue milk_prices milk_components :=
  (C7_revenue_formula_shared milk_prices milk_components ⟨1116, 1023, 31, []⟩
    (by norm_num [milk_components]) (by norm_num [milk_components])
    (by norm_num [milk_components])).2.2.2

/-- Claim C8 counterexample: with the one-entry price table
`[("Canola", 600)]` and a diet containing the unmatched feedstuff
`"Mystery meal"`, `calc_IOFC_nd` does not fail at the lookup — the map yields
a missing value whose line the skipna sum drops — and the call completes,
returning the number `25199/1000`, the same value as if the unmatched line
were not in the diet at all. -/
theorem C8_counterexample_nd_completes_on_missing_price :
    calc_IOFC_nd milk_prices [("Canola", 600)]
        ⟨1000, 1000, 30, [⟨"Mystery meal", 2, 90, 1.8⟩, ⟨"Canola", 1, 91, 0.91⟩]⟩
      = 25199 / 1000
    ∧ dollar_fed_p_d [("Canola", 600)] ⟨"Mystery meal", 2, 90, 1.8⟩ = none
    ∧ calc_IOFC_nd milk_prices [("Canola", 600)] ⟨1000, 1000, 30, [⟨"Canola", 1, 91, 0.91⟩]⟩
      = 25199 / 1000 := by
  refine ⟨?_, rfl, ?_⟩
  · simp [calc_IOFC_nd, ndRevenue, ndDietCost, sum_skipna, dollar_fed_p_d, lookupPrice,
      milk_prices, milk_fat_price_p_d, milk_protein_price_p_d, milk_other_solids_price_p_d]
    norm_num
  · simp [calc_IOFC_nd, ndRevenue, ndDietCost, sum_skipna, dollar_fed_p_d, lookupPrice,
      milk_prices, milk_fat_price_p_d, milk_protein_price_p_d, milk_other_solids_price_p_d]
    norm_num

/-- Claim C8 as amended: `calc_IOFC_nd` never fails on a missing price
mapping; the `Series.map` produces a missing (NaN) value, arithmetic
propagates it, and the NaN-skipping sum drops the line, so the invocation
always completes and returns revenue minus the cost of the matched lines
only. -/
theorem C8_amended_nd_skips_missing_prices (mp : MilkPrices) (ip : List (String × ℚ))
    (mo : ModelOutput) :
    calc_IOFC_nd mp ip mo = ndRevenue mp mo - ndDietCost ip mo.diet_info
    ∧ ndDietCost ip mo.diet_info
        = ndDietCost ip (mo.diet_info.filter (fun r => (lookupPrice ip r.Feedstuff).isSome)) :=
  ⟨rfl, ndDietCost_filter_matched ip mo.diet_info⟩

/-- Claim C9: both calculators are side-effect-free on their inputs — run as
state transformers, the caller's argument tuple after a call is exactly what
was passed in (the augmented ration table / `diet_sub` is a fresh local copy
built by `DataFrame.assign`, discarded on return). -/
theorem C9_inputs_unchanged (inp : ManualInputs) (inp2 : NdInputs) (v : Bool) :
    (calc_IOFC_manual_run inp v).2 = inp ∧ (calc_IOFC_nd_run inp2).2 = inp2 := by
  constructor
  · show ({ inp with ration_df := (inp.ration_df.map
        (fun r => (r, daily_cost_line inp.ingredient_prices r))).map (fun x => x.1) }
        : ManualInputs) = inp
    rw [map_fst_pair]
  · show ({ inp2 with mod_output := { inp2.mod_output with diet_info :=
        (inp2.mod_output.diet_info.map
          (fun r => (r, dollar_fed_p_d inp2.ingredient_prices r))).map (fun x => x.1) } }
        : NdInputs) = inp2
    rw [map_fst_pair]

/-- Claim C10 counterexample: a ration line with negative `DM_perc = -5` is
not flagged — `calc_IOFC_manual` silently divides by it, prices the line at
the negative daily cost `-943/25` $/d, and returns the numeric IOFC
`3268259/50000` instead of reporting an error. -/
theorem C10_counterexample_negative_dm_not_rejected :
    calc_IOFC_manual milk_prices milk_components ingredient_prices_asfed_tonne
        [⟨"Alfalfa Silage", 8.2, -5⟩] false
      = Except.ok (3268259 / 50000)
    ∧ daily_cost_line ingredient_prices_asfed_tonne ⟨"Alfalfa Silage", 8.2, -5⟩
      = some (-943 / 25) := by
  constructor
  · simp [calc_IOFC_manual, manualRevenue, manualDietCost, sum_skipna, daily_cost_line,
      lookupPrice, price_DM_t, price_DM_kg, milk_prices, milk_components,
      ingredient_prices_asfed_tonne, milk_fat_dollar_d, milk_protein_dollar_d,
      milk_other_dollar_d]
    norm_num
  · simp [daily_cost_line, lookupPrice, price_DM_t, price_DM_kg,
      ingredient_prices_asfed_tonne]
    norm_num

/-- Claim C10 as amended: the manual calculator performs no validation of
`DM_perc` at all — whenever the ration passes the ingredient-name check, the
call succeeds (returns `Except.ok`) for every `DM_perc`, zero or negative
included; the division is carried out silently (negative DM produces a
negative cost, and the float implementation at DM = 0 produces an infinite
price), never an error. -/
theorem C10_amended_no_dm_validation (mp : MilkPrices) (mc : MilkComponents)
    (ip : List (String × ℚ)) (ration : List RationLine) (v : Bool)
    (hval : ∀ r ∈ ration, (lookupPrice ingredient_prices_asfed_tonne r.Ingredient).isSome) :
    (calc_IOFC_manual mp mc ip ration v).toOption.isSome = true := by
  rw [calc_IOFC_manual_ok mp mc ip ration v hval]
  rfl

/-- Witness for C10's amended theorem, at a ration line with negative DM. -/
theorem C10_amended_witness :
    (calc_IOFC_manual milk_prices milk_components ingredient_prices_asfed_tonne
        [⟨"Canola", 1, -10⟩] false).toOption.isSome = true :=
  C10_amended_no_dm_validation milk_prices milk_components ingredient_prices_asfed_tonne
    [⟨"Canola", 1, -10⟩] false (by decide)
